import Mathlib

/-!
Shallow embedding of the core of the Herqq UPnP (HUPnP) library, covering the
device-host SOAP error mapping, HTTP messaging framing and retry loops,
the device-host announcement scheduler and configuration clamping, the
client-side event-subscription manager, the device-host initialization and
shutdown state machine, and the server-side event notifier.

Each definition is translated from the corresponding C++ function, with the
source file and line range recorded in its doc comment.  Machine integers are
modelled as Nat or Int; fallible code returns Option or an explicit outcome
type; Qt signal emissions and socket traffic are modelled as explicit values
in the result.
-/

namespace Hupnp

/-! ## SOAP action error mapping (http_handler_p.cpp) -/

/-- QtSoapMessage::FaultCode (from the QtSoap library used by the source). -/
inductive FaultCode where
  | VersionMismatch
  | MustUnderstand
  | Client
  | Server
  deriving DecidableEq, Repr

/-- Modelled from the spec: the `HAction` error-code constants declared in
`devicemodel/action.h`, which is not among the provided sources.  The UDA
assigns these UPnP error codes the numeric values used below; the error
mapping table of the spec (section 4.E) pairs each name with the same
number. -/
def HAction.InvalidArgs : Int := 402

/-- Modelled from the spec: see `HAction.InvalidArgs`. -/
def HAction.ActionFailed : Int := 501

/-- Modelled from the spec: see `HAction.InvalidArgs`. -/
def HAction.ArgumentValueInvalid : Int := 600

/-- Modelled from the spec: see `HAction.InvalidArgs`. -/
def HAction.ArgumentValueOutOfRange : Int := 601

/-- Modelled from the spec: see `HAction.InvalidArgs`. -/
def HAction.OptionalActionNotImplemented : Int := 602

/-- Modelled from the spec: see `HAction.InvalidArgs`. -/
def HAction.OutOfMemory : Int := 603

/-- Modelled from the spec: see `HAction.InvalidArgs`. -/
def HAction.HumanInterventionRequired : Int := 604

/-- Modelled from the spec: see `HAction.InvalidArgs`. -/
def HAction.StringArgumentTooLong : Int := 605

/-- Result of `checkForActionError`: the three out-parameters
`httpStatusCode`, `httpReasonPhrase` and `soapFault`. -/
structure ActionErrorMapping where
  httpStatusCode : Int
  httpReasonPhrase : String
  soapFault : FaultCode
  deriving DecidableEq, Repr

/-- The function `checkForActionError` (http_handler_p.cpp lines 1124-1188): maps an
internal action return value to the HTTP status code, reason phrase and SOAP
fault code of the error response. -/
def checkForActionError (actionRetVal : Int) : ActionErrorMapping :=
  if actionRetVal = HAction.InvalidArgs then
    ⟨402, "Invalid Args", FaultCode.Client⟩
  else if actionRetVal = HAction.ActionFailed then
    ⟨501, "Action Failed", FaultCode.Client⟩
  else if actionRetVal = HAction.ArgumentValueInvalid then
    ⟨600, "Argument Value Invalid", FaultCode.Client⟩
  else if actionRetVal = HAction.ArgumentValueOutOfRange then
    ⟨601, "Argument Value Out of Range", FaultCode.Client⟩
  else if actionRetVal = HAction.OptionalActionNotImplemented then
    ⟨602, "Optional Action Not Implemented", FaultCode.Client⟩
  else if actionRetVal = HAction.OutOfMemory then
    ⟨603, "Out of Memory", FaultCode.Client⟩
  else if actionRetVal = HAction.HumanInterventionRequired then
    ⟨604, "Human Intervention Required", FaultCode.Client⟩
  else if actionRetVal = HAction.StringArgumentTooLong then
    ⟨605, "String Argument Too Long", FaultCode.Client⟩
  else
    ⟨actionRetVal, toString actionRetVal, FaultCode.Client⟩

/-- The observable content of the SOAP fault response emitted by
`HHttpHandler::responseActionFailed`. -/
structure ActionFailedResponse where
  httpStatusCode : Int
  httpReasonPhrase : String
  faultCode : FaultCode
  faultString : String
  errorCode : Int
  errorDescription : String
  deriving DecidableEq, Repr

/-- The function `HHttpHandler::responseActionFailed` (http_handler_p.cpp lines
1191-1212): builds the SOAP fault response for a failed action invocation.
The fault detail is the UPnPError struct with the `errorCode` and
`errorDescription` elements. -/
def responseActionFailed (actionErrCode : Int) (description : String) :
    ActionFailedResponse :=
  let m := checkForActionError actionErrCode
  { httpStatusCode := m.httpStatusCode
    httpReasonPhrase := m.httpReasonPhrase
    faultCode := m.soapFault
    faultString := "UPnPError"
    errorCode := actionErrCode
    errorDescription := description }

/-! ## Device configuration (hdevicehost.cpp, HDeviceConfiguration) -/

/-- The observable state of an `HDeviceConfigurationPrivate`
(hdevicehost.cpp lines 529-533): the cache-control max-age defaults
to 1800 seconds. -/
structure HDeviceConfiguration where
  cacheControlMaxAgeInSecs : Nat := 1800
  deriving DecidableEq, Repr

/-- The function `HDeviceConfiguration::setCacheControlMaxAge` (hdevicehost.cpp lines
580-592): values below 5 are raised to 5, values above 60*60*24 are lowered
to 60*60*24, and the result is stored. -/
def setCacheControlMaxAge (cfg : HDeviceConfiguration) (maxAgeInSecs : Nat) :
    HDeviceConfiguration :=
  let v :=
    if maxAgeInSecs < 5 then 5
    else if maxAgeInSecs > 60 * 60 * 24 then 60 * 60 * 24
    else maxAgeInSecs
  { cfg with cacheControlMaxAgeInSecs := v }

/-- The function `HDeviceConfiguration::cacheControlMaxAge` (hdevicehost.cpp lines
594-597): returns the stored value. -/
def cacheControlMaxAge (cfg : HDeviceConfiguration) : Nat :=
  cfg.cacheControlMaxAgeInSecs

/-! ## Announcement re-announce scheduling (hdevicehost.cpp) -/

/-- The function `HDeviceHostPrivate::createRootDevices` (hdevicehost.cpp lines 112-116)
sets the status-notifier timeout of a root device to
`deviceInitParams->cacheControlMaxAge() / 2` seconds (integer division); the
comment there states that this instructs the device host to re-announce the
device presence well before the advertised cache-control value expires. -/
def deviceTimeoutInSecs (cfg : HDeviceConfiguration) : Nat :=
  cacheControlMaxAge cfg / 2

/-- Modelled from the spec: the status-notifier timer of `HDeviceController`
(`startStatusNotifier` / the `statusTimeout` signal) is not among the provided
sources.  Per the spec (section 4.B, half-age rule) the timer is armed with
the half-age value and fires when it elapses;
`HDeviceHostPrivate::announcementTimedout` (hdevicehost.cpp lines 68-80) then
sends the `ssdp:alive` announcements for the root device and re-arms the
timer via `startStatusNotifier`.  `aliveEmissionTime cfg t0 n` is therefore
the time, in seconds, of the n-th `ssdp:alive` emission for a root device
whose initial announcement (hdevicehost.cpp line 371) happened at time t0. -/
def aliveEmissionTime (cfg : HDeviceConfiguration) (t0 : Nat) : Nat → Nat
  | 0 => t0
  | n + 1 => aliveEmissionTime cfg t0 n + deviceTimeoutInSecs cfg

/-! ## HTTP header injection on send (http_handler_p.cpp) -/

/-- ASCII lowercasing of a string, character by character; header keys are
ASCII, so this coincides with the lowercasing Qt applies to them. -/
def asciiLower (s : String) : String := ⟨s.data.map Char.toLower⟩

/-- A `QHttpHeader` modelled as its list of header fields plus the protocol
minor version.  Qt stores header keys lowercased and matches them
case-insensitively; we model this by lowercasing keys on set and lookup. -/
structure QHttpHeader where
  fields : List (String × String)
  minorVersion : Nat
  deriving DecidableEq, Repr

/-- The function `QHttpHeader::setValue`: replaces the value of the given key, or appends
the field if the key is not present (keys are case-insensitive). -/
def QHttpHeader.setValue (hdr : QHttpHeader) (key value : String) :
    QHttpHeader :=
  let k := asciiLower key
  if hdr.fields.any (fun f => f.1 = k) then
    { hdr with
      fields := hdr.fields.map (fun f => if f.1 = k then (k, value) else f) }
  else
    { hdr with fields := hdr.fields ++ [(k, value)] }

/-- The function `QHttpHeader::value`: case-insensitive lookup of a header field. -/
def QHttpHeader.value (hdr : QHttpHeader) (key : String) : Option String :=
  (hdr.fields.find? (fun f => f.1 = asciiLower key)).map (·.2)

/-- The function `QHttpHeader::setContentLength` sets the `content-length` field to the
decimal representation of the given size. -/
def QHttpHeader.setContentLength (hdr : QHttpHeader) (len : Nat) :
    QHttpHeader :=
  hdr.setValue "content-length" (toString len)

/-- The fields of `MessagingInfo` that `HHttpHandler::send` reads: the
keep-alive flag, the configured maximum chunk size
(`chunkedInfo().m_maxChunkSize`, a signed integer), and the host info
injected as the HOST header. -/
structure MessagingInfo where
  keepAlive : Bool
  maxChunkSize : Int
  hostInfo : String
  deriving DecidableEq, Repr

/-- The function `HHttpHandler::send(MessagingInfo&, QHttpHeader&, const QByteArray&)`
(http_handler_p.cpp lines 577-618): mutates the header by injecting DATE,
HOST, optionally a close Connection directive, and either the chunked
Transfer-Encoding or the Content-Length, then sends the message either
chunked or plain.  `dateStr` stands for the current RFC 1123 date string;
`dataSize` is `data.size()`.  The result is the final header and the flag
telling whether the body was sent chunked. -/
def sendHeaderAndBody (mi : MessagingInfo) (reqHdr : QHttpHeader)
    (dataSize : Nat) (dateStr : String) : QHttpHeader × Bool :=
  let hdr := reqHdr.setValue "DATE" dateStr
  let hdr :=
    if !mi.keepAlive && hdr.minorVersion = 1 then
      hdr.setValue "Connection" "close"
    else hdr
  let hdr := hdr.setValue "HOST" mi.hostInfo
  let chunked := mi.maxChunkSize > 0 && (dataSize : Int) > mi.maxChunkSize
  let hdr :=
    if chunked then hdr.setValue "Transfer-Encoding" "chunked"
    else hdr.setContentLength dataSize
  (hdr, chunked)

/-! ## Socket write loops (http_handler_p.cpp) -/

/-- The state of the TCP socket observed by one iteration of a write loop:
the connection state checked at the top of the loop, the return value of
`QTcpSocket::write`, and the validity of the socket
(`QTcpSocket::isValid`). -/
structure SockStep where
  connected : Bool
  writeResult : Int
  isValid : Bool
  deriving DecidableEq, Repr

/-- Outcome of a send loop: the data was written in full, a
`HSocketException` was thrown, or the supplied socket trace ran out while the
loop was still running. -/
inductive SendOutcome where
  | sent
  | socketError
  | stillLooping
  deriving DecidableEq, Repr

/-- The write loop of `HHttpHandler::send(MessagingInfo&, const QByteArray&)`
(http_handler_p.cpp lines 428-458): while bytes remain, check the connection
state (disconnected throws), write, and on a zero-byte result throw if the
socket is invalid or `errorThreshold > 100`, else increment the threshold and
retry; a negative result throws immediately.  `remaining` is
`data.size() - index`; `thr` is `errorThreshold`; each loop iteration
consumes one element of `steps`. -/
def sendLoop (steps : List SockStep) (remaining thr : Nat) : SendOutcome :=
  if remaining = 0 then .sent
  else
    match steps with
    | [] => .stillLooping
    | s :: rest =>
      if !s.connected then .socketError
      else if s.writeResult = 0 then
        if !s.isValid || thr > 100 then .socketError
        else sendLoop rest remaining (thr + 1)
      else if s.writeResult < 0 then .socketError
      else sendLoop rest (remaining - s.writeResult.toNat) thr

/-- Outcome of the chunk-write loop inside `HHttpHandler::sendChunked`. -/
inductive ChunkWriteOutcome where
  | exitedThreshold
  | wrote (bytes : Nat)
  | socketError
  | stillLooping
  deriving DecidableEq, Repr

/-- The inner chunk-write loop of `HHttpHandler::sendChunked`
(http_handler_p.cpp lines 515-540): `while (errorThreshold < 100)` write the
chunk; a zero-byte result throws if the socket is invalid or
`errorThreshold > 100`, else increments the threshold and retries; a negative
result throws; a positive result breaks out of the loop.  When the loop
guard fails the loop exits without an error, leaving `bytesWritten == 0`. -/
def chunkWriteLoop (steps : List SockStep) (thr : Nat) : ChunkWriteOutcome :=
  if thr ≥ 100 then .exitedThreshold
  else
    match steps with
    | [] => .stillLooping
    | s :: rest =>
      if s.writeResult = 0 then
        if !s.isValid || thr > 100 then .socketError
        else chunkWriteLoop rest (thr + 1)
      else if s.writeResult < 0 then .socketError
      else .wrote s.writeResult.toNat

/-! ## Message body framing on receive (http_handler_p.cpp) -/

/-- The part of a parsed HTTP header that `HHttpHandler::receive` inspects
to frame the body: whether the header parsed as valid, the value of the
TRANSFER-ENCODING field, and the CONTENT-LENGTH field when present. -/
structure RecvHeader where
  valid : Bool
  transferEncoding : Option String
  contentLength : Option Nat
  deriving DecidableEq, Repr

/-- The default-constructed header the source assigns with `hdr = Header()`
(http_handler_p.cpp line 396): it carries no fields and no request line,
which the spec reads as an invalid header. -/
def RecvHeader.default : RecvHeader :=
  { valid := false, transferEncoding := none, contentLength := none }

/-- The body-framing logic of `HHttpHandler::receive(MessagingInfo&, Header&)`
(http_handler_p.cpp lines 384-417), after the header bytes have been read and
parsed into `hdr`.  `chunkedData` stands for the bytes `readChunkedRequest`
would decode, `stream` for the remaining bytes buffered on the socket
(`readRequestData` reads `contentLength` of them; `readAll` takes them all).
Returns the header as left for the caller and the body. -/
def receiveFraming (hdr : RecvHeader) (chunkedData stream : List Nat) :
    RecvHeader × List Nat :=
  if !hdr.valid then (hdr, [])
  else if hdr.transferEncoding = some "chunked" then
    if hdr.contentLength.isSome then (RecvHeader.default, [])
    else (hdr, chunkedData)
  else
    match hdr.contentLength with
    | some n => (hdr, stream.take n)
    | none => (hdr, stream)

/-! ## Client-side event-subscription manager
(hevent_subscriptionmanager_p.cpp) -/

/-- Status of a client-side event subscription
(`HEventSubscription::SubscriptionStatus`). -/
inductive SubscriptionStatus where
  | Status_Unsubscribed
  | Status_Subscribing
  | Status_Subscribed
  | Status_Unsubscribing
  deriving DecidableEq, Repr

/-- The service proxy as seen by `HEventSubscriptionManager::subscribe`:
whether the service is evented, the UDN of its parent device, and the
identity of the underlying `HService` object (the source compares services
by pointer identity, `sub->service()->m_service == service`). -/
structure HServiceProxyM where
  isEvented : Bool
  udn : Nat
  key : Nat
  deriving DecidableEq, Repr

/-- A client-side `HEventSubscription` record as the manager observes it:
its id (a fresh QUuid), the identity of the subscribed service, and its
subscription status. -/
structure HEventSubscriptionM where
  id : Nat
  serviceKey : Nat
  status : SubscriptionStatus
  deriving DecidableEq, Repr

/-- The two indices of `HEventSubscriptionManager`: subscriptions keyed by
QUuid (`m_subscribtionsByUuid`) and lists of subscriptions keyed by device
UDN (`m_subscriptionsByUdn`), plus a counter supplying fresh ids. -/
structure SubMgrState where
  byUuid : List (Nat × HEventSubscriptionM)
  byUdn : List (Nat × List HEventSubscriptionM)
  nextId : Nat
  deriving DecidableEq, Repr

/-- The enum `HEventSubscriptionManager::SubscriptionResult`. -/
inductive SubscriptionResult where
  | Sub_Success
  | Sub_AlreadySubscribed
  | Sub_Failed_NotEvented
  deriving DecidableEq, Repr

/-- The observable outcome of `HEventSubscriptionManager::subscribe`: the
returned result code, the manager state afterwards, and the id of the
subscription on which `HEventSubscription::subscribe()` was invoked, when
one was. -/
structure SubscribeOutcome where
  result : SubscriptionResult
  state : SubMgrState
  subscribeIssuedOn : Option Nat
  deriving DecidableEq, Repr

/-- Insert-or-replace in an association list keyed by `Nat` (the behavior of
`QHash::insert`). -/
def alistInsert {α : Type} (l : List (Nat × α)) (k : Nat) (v : α) :
    List (Nat × α) :=
  if l.any (fun e => e.1 = k) then
    l.map (fun e => if e.1 = k then (k, v) else e)
  else
    l ++ [(k, v)]

/-- The function `HEventSubscriptionManager::subscribe(HServiceProxy*, qint32)`
(hevent_subscriptionmanager_p.cpp lines 191-255).  A non-evented service is
rejected with `Sub_Failed_NotEvented`.  Otherwise the per-UDN list is
searched for a subscription to the same service object: if one is found in
`Status_Subscribed`, `Sub_AlreadySubscribed` is returned and nothing
changes; if one is found in any other status, `subscribe()` is re-issued on
it and `Sub_Success` is returned.  If no subscription for the service
exists, a new one is created (its status starts at `Status_Unsubscribed`
until the issued `subscribe()` call progresses it, which happens in
`HEventSubscription`, outside this function), inserted into both indices,
`subscribe()` is issued on it and `Sub_Success` is returned. -/
def HEventSubscriptionManager.subscribe (st : SubMgrState)
    (service : HServiceProxyM) : SubscribeOutcome :=
  if !service.isEvented then
    ⟨.Sub_Failed_NotEvented, st, none⟩
  else
    let subsEntry := st.byUdn.find? (fun e => e.1 = service.udn)
    let existing : Option HEventSubscriptionM :=
      match subsEntry with
      | none => none
      | some (_, subs) => subs.find? (fun sub => sub.serviceKey = service.key)
    match existing with
    | some sub =>
      if sub.status = .Status_Subscribed then
        ⟨.Sub_AlreadySubscribed, st, none⟩
      else
        ⟨.Sub_Success, st, some sub.id⟩
    | none =>
      let subs := (subsEntry.map (·.2)).getD []
      let newSub : HEventSubscriptionM :=
        { id := st.nextId
          serviceKey := service.key
          status := .Status_Unsubscribed }
      let st' : SubMgrState :=
        { byUuid := alistInsert st.byUuid newSub.id newSub
          byUdn := alistInsert st.byUdn service.udn (subs ++ [newSub])
          nextId := st.nextId + 1 }
      ⟨.Sub_Success, st', some newSub.id⟩

/-! ## Device-host lifecycle (hdevicehost.cpp) -/

/-- The state enum of `HAbstractHostPrivate`. -/
inductive HostState where
  | Uninitialized
  | Initializing
  | Initialized
  | Exiting
  deriving DecidableEq, Repr

/-- The enum `HDeviceHost::ReturnCode`.  The declaring header is not among the
provided sources; the constructors are those the source file hdevicehost.cpp
returns, plus `NotStarted`, modelled from the spec error taxonomy
(section 7). -/
inductive ReturnCode where
  | Success
  | AlreadyInitialized
  | InvalidConfiguration
  | UndefinedFailure
  | InvalidDeviceDescription
  | InvalidServiceDescription
  | CommunicationsError
  | NotStarted
  deriving DecidableEq, Repr

/-- The observable private state of an `HDeviceHost`: the lifecycle state
and, for each member the initialization path allocates and `doClear`
releases, whether it is currently held, plus the active-request counter. -/
structure HostObs where
  state : HostState
  initParams : Bool
  httpHandler : Bool
  eventNotifier : Bool
  httpServer : Bool
  ssdp : Bool
  presenceAnnouncer : Bool
  activeRequestCount : Nat
  deriving DecidableEq, Repr

/-- A freshly constructed (or fully cleared) device host: everything
released, state `Uninitialized`. -/
def emptyHost : HostObs :=
  { state := .Uninitialized
    initParams := false
    httpHandler := false
    eventNotifier := false
    httpServer := false
    ssdp := false
    presenceAnnouncer := false
    activeRequestCount := 0 }

/-- The function `HDeviceHostPrivate::doClear` (hdevicehost.cpp lines 197-243), entered
with state `Exiting`: closes the HTTP server and handler, releases the
presence announcer, SSDP handler, HTTP handler, HTTP server, event notifier
and init parameters, zeroes the active-request count and sets the state to
`Uninitialized`. -/
def doClear (_h : HostObs) : HostObs := emptyHost

/-- The exceptions the `try` block of `HDeviceHost::init` can propagate to
its `catch` clauses: invalid device or service descriptions thrown while
building root devices, `HSocketException` (thrown at hdevicehost.cpp line
354 when the SSDP bind fails), and any other `HException`. -/
inductive InitException where
  | invalidDeviceDescription (reason : String)
  | invalidServiceDescription (reason : String)
  | socket (reason : String)
  | other (reason : String)
  deriving DecidableEq, Repr

/-- The environment `HDeviceHost::init` runs against: whether the supplied
configuration is empty, whether `DeviceHostHttpServer::listen` succeeds,
whether building the root devices throws, whether the SSDP bind succeeds,
and what the user `doInit` hook returns. -/
structure InitEnv where
  configEmpty : Bool
  httpListenOk : Bool
  createRootDevicesEx : Option InitException
  ssdpBindOk : Bool
  doInitResult : ReturnCode
  deriving DecidableEq, Repr

/-- The observable outcome of `HDeviceHost::init`: the returned code, the
host state afterwards, and the value written to the `errorString` of the
caller
(`none` when the function never writes it). -/
structure InitOutcome where
  rc : ReturnCode
  host : HostObs
  errorString : Option String
  deriving DecidableEq, Repr

/-- The function `HDeviceHost::init` (hdevicehost.cpp lines 285-419).  An already
initialized host returns `AlreadyInitialized`; an empty configuration
returns `InvalidConfiguration` with an explanatory error string.  Otherwise
the state moves to `Initializing` and the members are allocated in order;
an HTTP listen failure sets `errorString` and `rc := UndefinedFailure`
inside the try block, the exception paths record the exception reason in
the local `error` variable, and a failing `doInit` just yields its code.
On any failure the state is set to `Exiting`, `clear()` unwinds everything
to `Uninitialized`, and `errorString` is assigned the local `error`
variable, overwriting whatever was written before. -/
def HDeviceHost.init (h : HostObs) (env : InitEnv) : InitOutcome :=
  if h.state = .Initialized then
    ⟨.AlreadyInitialized, h, none⟩
  else if env.configEmpty then
    ⟨.InvalidConfiguration, h, some "No UPnP device configuration provided."⟩
  else
    let h1 : HostObs :=
      { h with
        state := .Initializing
        initParams := true
        httpHandler := true
        eventNotifier := true
        httpServer := true }
    let tryResult : ReturnCode × HostObs × String × Option String :=
      if !env.httpListenOk then
        (.UndefinedFailure, h1, "", some "Could not start the HTTP server.")
      else
        match env.createRootDevicesEx with
        | some (.invalidDeviceDescription r) =>
          (.InvalidDeviceDescription, h1, r, none)
        | some (.invalidServiceDescription r) =>
          (.InvalidServiceDescription, h1, r, none)
        | some (.socket r) => (.CommunicationsError, h1, r, none)
        | some (.other r) => (.UndefinedFailure, h1, r, none)
        | none =>
          let h2 := { h1 with ssdp := true }
          if !env.ssdpBindOk then
            (.CommunicationsError, h2, "Failed to initialize SSDP.", none)
          else
            let h3 := { h2 with presenceAnnouncer := true }
            match env.doInitResult with
            | .Success =>
              (.Success, { h3 with state := .Initialized }, "", none)
            | rc => (rc, h3, "", none)
    let (rc, hMid, error, written) := tryResult
    if rc ≠ .Success then
      ⟨rc, doClear { hMid with state := .Exiting }, some error⟩
    else
      ⟨rc, hMid, written⟩

/-- An SSDP emission performed by `quit`. -/
inductive SsdpEmission where
  | byebye
  deriving DecidableEq, Repr

/-- The observable outcome of `HDeviceHost::quit` (hdevicehost.cpp lines
421-456): the host state afterwards, the SSDP messages sent, and the value
the call returns.  The source declares `void HDeviceHost::quit()`, so no
return code is ever produced; the `Option ReturnCode` records the returned
code, `none` standing for the void return. -/
structure QuitOutcome where
  host : HostObs
  sent : List SsdpEmission
  returned : Option ReturnCode
  deriving DecidableEq, Repr

/-- The function `HDeviceHost::quit` (hdevicehost.cpp lines 421-456): a host in state
`Uninitialized` returns immediately, with no state change and nothing sent;
otherwise the state moves to `Exiting`, the notifiers are stopped, one
`ssdp:byebye` announcement round is sent for the root devices, and
`clear()` unwinds everything to `Uninitialized`. -/
def HDeviceHost.quit (h : HostObs) : QuitOutcome :=
  if h.state = .Uninitialized then
    ⟨h, [], none⟩
  else
    ⟨doClear { h with state := .Exiting }, [.byebye], none⟩

/-! ## Server-side event notifier (event_notifier_p.cpp) -/

/-- The server-side `HService` as the event notifier observes it: the UDN of
its parent device, its SCPD URL, and whether it is evented. -/
structure HServiceH where
  udn : Nat
  scpdUrl : Nat
  isEvented : Bool
  deriving DecidableEq, Repr

/-- The function `isSameService` (event_notifier_p.cpp lines 129-135): two services are
the same when their parent devices carry the same UDN and their SCPD URLs
coincide. -/
def isSameService (srv1 srv2 : HServiceH) : Bool :=
  srv1.udn = srv2.udn && srv1.scpdUrl = srv2.scpdUrl

/-- The fields of a server-side `SubscribeRequest` that `addSubscriber`
reads: the callback URLs and the requested timeout in seconds. -/
structure SubscribeRequestM where
  callbacks : List Nat
  timeout : Nat
  deriving DecidableEq, Repr

/-- A `ServiceEventSubscriber` as stored in `m_remoteClients`: the service
subscribed to, the delivery location (`sreq.callbacks().at(0)`), and the
granted timeout in seconds. -/
structure ServiceEventSubscriberM where
  service : HServiceH
  location : Nat
  timeout : Nat
  deriving DecidableEq, Repr

/-- The state of the `EventNotifier`: the remote-client list and the
shutdown flag. -/
structure EventNotifierState where
  remoteClients : List ServiceEventSubscriberM
  shutdown : Bool
  deriving DecidableEq, Repr

/-- The function `EventNotifier::addSubscriber` (event_notifier_p.cpp lines 166-215):
during shutdown, and when a subscriber for the same service with one of the
requested callback locations already exists, nothing is added and null is
returned.  Otherwise a subscriber is created whose granted timeout is the
requested timeout for an evented service and 60*60*24 seconds for a
non-evented one, and appended to the remote-client list. -/
def EventNotifier.addSubscriber (st : EventNotifierState)
    (service : HServiceH) (sreq : SubscribeRequestM) :
    Option ServiceEventSubscriberM × EventNotifierState :=
  if st.shutdown then (none, st)
  else if st.remoteClients.any
      (fun rc => isSameService rc.service service &&
        sreq.callbacks.contains rc.location) then
    (none, st)
  else
    let timeout := if service.isEvented then sreq.timeout else 60 * 60 * 24
    let rc : ServiceEventSubscriberM :=
      { service := service
        location := sreq.callbacks.headD 0
        timeout := timeout }
    (some rc, { st with remoteClients := st.remoteClients ++ [rc] })

/-- Modelled from the spec: `ServiceEventSubscriber::isInterested` is not
among the provided sources.  Per section 4.F a subscription receives change
notifications only for the service it subscribed to, and the notifier
identifies services by parent-device UDN and SCPD URL (`isSameService`). -/
def ServiceEventSubscriberM.isInterested (rc : ServiceEventSubscriberM)
    (source : HServiceH) : Bool :=
  isSameService rc.service source

/-- The function `EventNotifier::stateChanged` (event_notifier_p.cpp lines 295-330):
called when an evented service changes state (the function asserts
`source->isEvented()`, and per the source comment at lines 171-177 the
`HService` class emits no state-change signal unless the service is
evented).  During shutdown nothing is sent; otherwise every interested
subscriber is notified with the property set of the source service.
Returns the list of notified subscribers. -/
def EventNotifier.stateChanged (st : EventNotifierState)
    (source : HServiceH) : List ServiceEventSubscriberM :=
  if st.shutdown then []
  else st.remoteClients.filter (fun rc => rc.isInterested source)

/-! ## Helper lemmas -/

theorem find_map_replace_self (l : List (String × String)) (lk v : String)
    (h : l.any (fun f => f.1 = lk) = true) :
    (l.map (fun f => if f.1 = lk then (lk, v) else f)).find?
      (fun f => f.1 = lk) = some (lk, v) := by
  induction l with
  | nil => simp at h
  | cons f rest ih =>
    by_cases hf : f.1 = lk
    · simp [List.find?_cons, hf]
    · simp only [List.any_cons] at h
      simp only [List.map_cons, if_neg hf]
      rw [List.find?_cons_of_neg _ (by simp [hf])]
      exact ih (by simpa [hf] using h)

theorem find_map_replace_other (l : List (String × String)) (lk l2 v : String)
    (hne : lk ≠ l2) :
    (l.map (fun f => if f.1 = lk then (lk, v) else f)).find?
      (fun f => f.1 = l2) = l.find? (fun f => f.1 = l2) := by
  induction l with
  | nil => rfl
  | cons f rest ih =>
    by_cases hf : f.1 = lk
    · have hf2 : ¬(f.1 = l2) := fun hc => hne (hf ▸ hc)
      simp only [List.map_cons, if_pos hf]
      rw [List.find?_cons_of_neg _ (by simp [hne]),
        List.find?_cons_of_neg _ (by simp [hf2])]
      exact ih
    · simp only [List.map_cons, if_neg hf]
      by_cases hg : f.1 = l2
      · rw [List.find?_cons_of_pos _ (by simp [hg]),
          List.find?_cons_of_pos _ (by simp [hg])]
      · rw [List.find?_cons_of_neg _ (by simp [hg]),
          List.find?_cons_of_neg _ (by simp [hg])]
        exact ih

theorem QHttpHeader.value_setValue_self (hdr : QHttpHeader) (k v : String) :
    (hdr.setValue k v).value k = some v := by
  rcases hdr with ⟨fields, mv⟩
  simp only [QHttpHeader.setValue, QHttpHeader.value]
  by_cases h : fields.any (fun f => f.1 = asciiLower k)
  · rw [if_pos h]
    simp [find_map_replace_self fields (asciiLower k) v h]
  · rw [if_neg h]
    have hnone : fields.find? (fun f => f.1 = asciiLower k) = none := by
      rw [List.find?_eq_none]
      intro x hx
      simp only [List.any_eq_true] at h
      simp only [decide_eq_true_eq]
      exact fun hc => h ⟨x, hx, by simp [hc]⟩
    simp [List.find?_append, hnone]

theorem QHttpHeader.value_setValue_other (hdr : QHttpHeader) (k k' v : String)
    (hne : asciiLower k ≠ asciiLower k') :
    (hdr.setValue k v).value k' = hdr.value k' := by
  rcases hdr with ⟨fields, mv⟩
  simp only [QHttpHeader.setValue, QHttpHeader.value]
  by_cases h : fields.any (fun f => f.1 = asciiLower k)
  · rw [if_pos h]
    simp [find_map_replace_other fields (asciiLower k) (asciiLower k') v hne]
  · rw [if_neg h]
    have : List.find? (fun f => f.1 = asciiLower k')
        [(asciiLower k, v)] = none := by
      rw [List.find?_eq_none]
      intro x hx
      simp only [List.mem_singleton] at hx
      simp [hx, hne]
    simp [List.find?_append, this]

theorem QHttpHeader.minorVersion_setValue (hdr : QHttpHeader)
    (k v : String) : (hdr.setValue k v).minorVersion = hdr.minorVersion := by
  rcases hdr with ⟨fields, mv⟩
  simp only [QHttpHeader.setValue]
  by_cases h : fields.any (fun f => f.1 = asciiLower k)
  · rw [if_pos h]
  · rw [if_neg h]

theorem find_alist_replace_self {α : Type} (l : List (Nat × α)) (k : Nat)
    (v : α) (h : l.any (fun e => e.1 = k) = true) :
    (l.map (fun e => if e.1 = k then (k, v) else e)).find?
      (fun e => e.1 = k) = some (k, v) := by
  induction l with
  | nil => simp at h
  | cons f rest ih =>
    by_cases hf : f.1 = k
    · simp [List.find?_cons, hf]
    · simp only [List.any_cons] at h
      simp only [List.map_cons, if_neg hf]
      rw [List.find?_cons_of_neg _ (by simp [hf])]
      exact ih (by simpa [hf] using h)

theorem alistInsert_find_self {α : Type} (l : List (Nat × α)) (k : Nat)
    (v : α) :
    (alistInsert l k v).find? (fun e => e.1 = k) = some (k, v) := by
  simp only [alistInsert]
  by_cases h : l.any (fun e => e.1 = k)
  · rw [if_pos h]
    exact find_alist_replace_self l k v h
  · rw [if_neg h]
    have hnone : l.find? (fun e => e.1 = k) = none := by
      rw [List.find?_eq_none]
      intro x hx
      simp only [List.any_eq_true] at h
      simp only [decide_eq_true_eq]
      exact fun hc => h ⟨x, hx, by simp [hc]⟩
    simp [List.find?_append, hnone]

/-! ## Claim theorems -/

/-- C1: for every internal action error code passed to the device-host error
responder, the HTTP status emitted follows the error-mapping table
(InvalidArgs to 402, ActionFailed to 501, ArgumentValueInvalid to 600,
ArgumentValueOutOfRange to 601, OptionalActionNotImplemented to 602,
OutOfMemory to 603, HumanInterventionRequired to 604, StringArgumentTooLong
to 605, any other code passed through); the SOAP fault code is always Client
and the fault detail carries the errorCode and errorDescription. -/
theorem checkForActionError_follows_table (code : Int) (description : String)
    (hvendor : code ∉ ([402, 501, 600, 601, 602, 603, 604, 605] : List Int)) :
    (checkForActionError HAction.InvalidArgs).httpStatusCode = 402 ∧
    (checkForActionError HAction.ActionFailed).httpStatusCode = 501 ∧
    (checkForActionError HAction.ArgumentValueInvalid).httpStatusCode = 600 ∧
    (checkForActionError HAction.ArgumentValueOutOfRange).httpStatusCode
      = 601 ∧
    (checkForActionError HAction.OptionalActionNotImplemented).httpStatusCode
      = 602 ∧
    (checkForActionError HAction.OutOfMemory).httpStatusCode = 603 ∧
    (checkForActionError HAction.HumanInterventionRequired).httpStatusCode
      = 604 ∧
    (checkForActionError HAction.StringArgumentTooLong).httpStatusCode
      = 605 ∧
    (checkForActionError code).httpStatusCode = code ∧
    (∀ c : Int, (checkForActionError c).soapFault = FaultCode.Client) ∧
    (∀ c : Int, (responseActionFailed c description).faultCode
        = FaultCode.Client ∧
      (responseActionFailed c description).errorCode = c ∧
      (responseActionFailed c description).errorDescription = description) := by
  simp only [List.mem_cons, List.not_mem_nil, or_false, not_or] at hvendor
  obtain ⟨h1, h2, h3, h4, h5, h6, h7, h8⟩ := hvendor
  refine ⟨rfl, rfl, rfl, rfl, rfl, rfl, rfl, rfl, ?_, ?_, ?_⟩
  · simp only [checkForActionError, HAction.InvalidArgs, HAction.ActionFailed,
      HAction.ArgumentValueInvalid, HAction.ArgumentValueOutOfRange,
      HAction.OptionalActionNotImplemented, HAction.OutOfMemory,
      HAction.HumanInterventionRequired, HAction.StringArgumentTooLong,
      if_neg h1, if_neg h2, if_neg h3, if_neg h4, if_neg h5, if_neg h6,
      if_neg h7, if_neg h8]
  · intro c
    simp only [checkForActionError]
    split <;> first | rfl | (split <;> first | rfl | (split <;> first
      | rfl | (split <;> first | rfl | (split <;> first | rfl | (split <;>
      first | rfl | (split <;> first | rfl | (split <;> rfl)))))))
  · intro c
    refine ⟨?_, rfl, rfl⟩
    simp only [responseActionFailed, checkForActionError]
    split <;> first | rfl | (split <;> first | rfl | (split <;> first
      | rfl | (split <;> first | rfl | (split <;> first | rfl | (split <;>
      first | rfl | (split <;> first | rfl | (split <;> rfl)))))))

/-- Witness for `checkForActionError_follows_table` at the vendor code 800
and a concrete description. -/
theorem checkForActionError_follows_table_witness :
    (checkForActionError 800).httpStatusCode = 800 :=
  (checkForActionError_follows_table 800 "vendor fault" (by decide)).2.2.2.2.2.2.2.2.1

/-- C3: setting the cache-control max-age of a device configuration stores
exactly the value clamped to the interval from 5 to 86400, and the getter
returns the clamped value. -/
theorem setCacheControlMaxAge_clamps (cfg : HDeviceConfiguration) (v : Nat) :
    cacheControlMaxAge (setCacheControlMaxAge cfg v)
      = min (max v 5) 86400 ∧
    (v < 5 → cacheControlMaxAge (setCacheControlMaxAge cfg v) = 5) ∧
    (v > 86400 → cacheControlMaxAge (setCacheControlMaxAge cfg v) = 86400) ∧
    (5 ≤ v → v ≤ 86400 →
      cacheControlMaxAge (setCacheControlMaxAge cfg v) = v) := by
  simp only [cacheControlMaxAge, setCacheControlMaxAge]
  refine ⟨?_, ?_, ?_, ?_⟩ <;> intros <;> split_ifs <;> omega

/-- Witness for `setCacheControlMaxAge_clamps` at value 2 (raised to 5). -/
theorem setCacheControlMaxAge_clamps_witness :
    cacheControlMaxAge (setCacheControlMaxAge {} 2) = 5 :=
  (setCacheControlMaxAge_clamps {} 2).2.1 (by decide)

/-- C2: with the status-notifier timeout armed with the half-age value
(cacheControlMaxAge / 2) and re-armed after every announcement, the interval
between successive ssdp-alive emissions for a root device never exceeds
cacheControlMaxAge / 2 seconds. -/
theorem aliveEmission_interval_at_most_half_age
    (cfg : HDeviceConfiguration) (t0 n : Nat) :
    aliveEmissionTime cfg t0 (n + 1) - aliveEmissionTime cfg t0 n
      ≤ cacheControlMaxAge cfg / 2 ∧
    deviceTimeoutInSecs cfg = cacheControlMaxAge cfg / 2 := by
  constructor
  · simp [aliveEmissionTime, deviceTimeoutInSecs]
  · rfl

theorem QHttpHeader.value_congr (hdr : QHttpHeader) (k k' : String)
    (h : asciiLower k = asciiLower k') : hdr.value k = hdr.value k' := by
  simp [QHttpHeader.value, h]

/-- C4: for every HTTP message sent with a header and body, the sender
injects the DATE and HOST headers, adds a close Connection directive when
keep-alive is disabled and the minor version of the header is 1, and frames
the body as chunked exactly when the configured max-chunk-size is positive
and the body size exceeds it; otherwise it sets Content-Length to the body
size. -/
theorem sendHeaderAndBody_spec (mi : MessagingInfo) (reqHdr : QHttpHeader)
    (dataSize : Nat) (dateStr : String) :
    ((sendHeaderAndBody mi reqHdr dataSize dateStr).1.value "DATE"
      = some dateStr) ∧
    ((sendHeaderAndBody mi reqHdr dataSize dateStr).1.value "HOST"
      = some mi.hostInfo) ∧
    (mi.keepAlive = false → reqHdr.minorVersion = 1 →
      (sendHeaderAndBody mi reqHdr dataSize dateStr).1.value "Connection"
        = some "close") ∧
    ((sendHeaderAndBody mi reqHdr dataSize dateStr).2 = true ↔
      0 < mi.maxChunkSize ∧ (dataSize : Int) > mi.maxChunkSize) ∧
    ((sendHeaderAndBody mi reqHdr dataSize dateStr).2 = true →
      (sendHeaderAndBody mi reqHdr dataSize dateStr).1.value
        "Transfer-Encoding" = some "chunked") ∧
    ((sendHeaderAndBody mi reqHdr dataSize dateStr).2 = false →
      (sendHeaderAndBody mi reqHdr dataSize dateStr).1.value
        "Content-Length" = some (toString dataSize)) := by
  have oTE_DATE : ∀ h : QHttpHeader,
      (h.setValue "Transfer-Encoding" "chunked").value "DATE"
        = h.value "DATE" :=
    fun h => QHttpHeader.value_setValue_other h _ _ _ (by decide)
  have oCL_DATE : ∀ (h : QHttpHeader) (v : String),
      (h.setValue "content-length" v).value "DATE" = h.value "DATE" :=
    fun h v => QHttpHeader.value_setValue_other h _ _ _ (by decide)
  have oHOST_DATE : ∀ h : QHttpHeader,
      (h.setValue "HOST" mi.hostInfo).value "DATE" = h.value "DATE" :=
    fun h => QHttpHeader.value_setValue_other h _ _ _ (by decide)
  have oCONN_DATE : ∀ h : QHttpHeader,
      (h.setValue "Connection" "close").value "DATE" = h.value "DATE" :=
    fun h => QHttpHeader.value_setValue_other h _ _ _ (by decide)
  have sDATE : ∀ h : QHttpHeader,
      (h.setValue "DATE" dateStr).value "DATE" = some dateStr :=
    fun h => QHttpHeader.value_setValue_self h _ _
  have oTE_HOST : ∀ h : QHttpHeader,
      (h.setValue "Transfer-Encoding" "chunked").value "HOST"
        = h.value "HOST" :=
    fun h => QHttpHeader.value_setValue_other h _ _ _ (by decide)
  have oCL_HOST : ∀ (h : QHttpHeader) (v : String),
      (h.setValue "content-length" v).value "HOST" = h.value "HOST" :=
    fun h v => QHttpHeader.value_setValue_other h _ _ _ (by decide)
  have sHOST : ∀ h : QHttpHeader,
      (h.setValue "HOST" mi.hostInfo).value "HOST" = some mi.hostInfo :=
    fun h => QHttpHeader.value_setValue_self h _ _
  have oTE_CONN : ∀ h : QHttpHeader,
      (h.setValue "Transfer-Encoding" "chunked").value "Connection"
        = h.value "Connection" :=
    fun h => QHttpHeader.value_setValue_other h _ _ _ (by decide)
  have oCL_CONN : ∀ (h : QHttpHeader) (v : String),
      (h.setValue "content-length" v).value "Connection"
        = h.value "Connection" :=
    fun h v => QHttpHeader.value_setValue_other h _ _ _ (by decide)
  have oHOST_CONN : ∀ h : QHttpHeader,
      (h.setValue "HOST" mi.hostInfo).value "Connection"
        = h.value "Connection" :=
    fun h => QHttpHeader.value_setValue_other h _ _ _ (by decide)
  have sCONN : ∀ h : QHttpHeader,
      (h.setValue "Connection" "close").value "Connection" = some "close" :=
    fun h => QHttpHeader.value_setValue_self h _ _
  have sTE : ∀ h : QHttpHeader,
      (h.setValue "Transfer-Encoding" "chunked").value "Transfer-Encoding"
        = some "chunked" :=
    fun h => QHttpHeader.value_setValue_self h _ _
  have sCL : ∀ (h : QHttpHeader) (v : String),
      (h.setValue "content-length" v).value "Content-Length" = some v :=
    fun h v => by
      rw [QHttpHeader.value_congr _ "Content-Length" "content-length"
        (by decide)]
      exact QHttpHeader.value_setValue_self h _ _
  simp only [sendHeaderAndBody, QHttpHeader.setContentLength]
  refine ⟨?_, ?_, ?_, ?_, ?_, ?_⟩
  · split_ifs <;>
      simp only [oTE_DATE, oCL_DATE, oHOST_DATE, oCONN_DATE, sDATE]
  · split_ifs <;> simp only [oTE_HOST, oCL_HOST, sHOST]
  · intro hka hmv
    have hcond : (!mi.keepAlive &&
        ((reqHdr.setValue "DATE" dateStr).minorVersion = 1 : Bool)) = true := by
      simp [hka, QHttpHeader.minorVersion_setValue, hmv]
    simp only [hcond, eq_self_iff_true, if_true]
    split_ifs <;> simp only [oTE_CONN, oCL_CONN, oHOST_CONN, sCONN]
  · simp [Bool.and_eq_true, decide_eq_true_eq]
  · intro h2
    rw [if_pos h2]
    exact sTE _
  · intro h2
    rw [if_neg (by simp [h2])]
    exact sCL _ _

/-- Witness for `sendHeaderAndBody_spec`: a keep-alive-disabled HTTP/1.1
message whose 4-byte body does not exceed the 10-byte chunk limit gets the
close Connection directive and a Content-Length of 4. -/
theorem sendHeaderAndBody_spec_witness :
    ((sendHeaderAndBody ⟨false, 10, "h"⟩ ⟨[], 1⟩ 4 "d").1.value "Connection"
      = some "close") ∧
    ((sendHeaderAndBody ⟨false, 10, "h"⟩ ⟨[], 1⟩ 4 "d").1.value
      "Content-Length" = some "4") :=
  ⟨(sendHeaderAndBody_spec ⟨false, 10, "h"⟩ ⟨[], 1⟩ 4 "d").2.2.1 rfl rfl,
   (sendHeaderAndBody_spec ⟨false, 10, "h"⟩ ⟨[], 1⟩ 4 "d").2.2.2.2.2
     (by decide)⟩

/-- C5: subscribe on a non-evented service returns the not-evented error and
creates no state; with an existing subscription for the service in
Subscribed status it returns already-subscribed and creates nothing; with an
existing subscription in another status it re-issues subscribe on that
record and returns success; otherwise it creates a new subscription,
inserts it into both the by-id and the by-UDN index, and returns success. -/
theorem subscribe_cases (st : SubMgrState) (service : HServiceProxyM) :
    (service.isEvented = false →
      HEventSubscriptionManager.subscribe st service
        = ⟨.Sub_Failed_NotEvented, st, none⟩) ∧
    (∀ (entry : Nat × List HEventSubscriptionM) (sub : HEventSubscriptionM),
      service.isEvented = true →
      st.byUdn.find? (fun e => e.1 = service.udn) = some entry →
      entry.2.find? (fun s => s.serviceKey = service.key) = some sub →
      sub.status = .Status_Subscribed →
      HEventSubscriptionManager.subscribe st service
        = ⟨.Sub_AlreadySubscribed, st, none⟩) ∧
    (∀ (entry : Nat × List HEventSubscriptionM) (sub : HEventSubscriptionM),
      service.isEvented = true →
      st.byUdn.find? (fun e => e.1 = service.udn) = some entry →
      entry.2.find? (fun s => s.serviceKey = service.key) = some sub →
      sub.status ≠ .Status_Subscribed →
      HEventSubscriptionManager.subscribe st service
        = ⟨.Sub_Success, st, some sub.id⟩) ∧
    (∀ entry : Nat × List HEventSubscriptionM,
      service.isEvented = true →
      st.byUdn.find? (fun e => e.1 = service.udn) = some entry →
      entry.2.find? (fun s => s.serviceKey = service.key) = none →
      (HEventSubscriptionManager.subscribe st service).result
          = .Sub_Success ∧
      (HEventSubscriptionManager.subscribe st service).subscribeIssuedOn
          = some st.nextId ∧
      (HEventSubscriptionManager.subscribe st service).state.byUuid.find?
          (fun e => e.1 = st.nextId)
        = some (st.nextId,
            ⟨st.nextId, service.key, .Status_Unsubscribed⟩) ∧
      (HEventSubscriptionManager.subscribe st service).state.byUdn.find?
          (fun e => e.1 = service.udn)
        = some (service.udn,
            entry.2 ++ [⟨st.nextId, service.key, .Status_Unsubscribed⟩])) ∧
    (service.isEvented = true →
      st.byUdn.find? (fun e => e.1 = service.udn) = none →
      (HEventSubscriptionManager.subscribe st service).result
          = .Sub_Success ∧
      (HEventSubscriptionManager.subscribe st service).subscribeIssuedOn
          = some st.nextId ∧
      (HEventSubscriptionManager.subscribe st service).state.byUuid.find?
          (fun e => e.1 = st.nextId)
        = some (st.nextId,
            ⟨st.nextId, service.key, .Status_Unsubscribed⟩) ∧
      (HEventSubscriptionManager.subscribe st service).state.byUdn.find?
          (fun e => e.1 = service.udn)
        = some (service.udn,
            [⟨st.nextId, service.key, .Status_Unsubscribed⟩])) := by
  refine ⟨?_, ?_, ?_, ?_, ?_⟩
  · intro hev
    simp [HEventSubscriptionManager.subscribe, hev]
  · rintro ⟨k, subs⟩ sub hev hfind hsub hstatus
    simp [HEventSubscriptionManager.subscribe, hev, hfind, hsub, hstatus]
  · rintro ⟨k, subs⟩ sub hev hfind hsub hstatus
    simp [HEventSubscriptionManager.subscribe, hev, hfind, hsub, hstatus]
  · rintro ⟨k, subs⟩ hev hfind hsub
    simp only [HEventSubscriptionManager.subscribe, hev, hfind, hsub,
      Bool.not_true, Bool.false_eq_true, if_false, Option.map_some,
      Option.getD_some]
    exact ⟨trivial, trivial, alistInsert_find_self _ _ _,
      alistInsert_find_self _ _ _⟩
  · intro hev hfind
    simp only [HEventSubscriptionManager.subscribe, hev, hfind,
      Bool.not_true, Bool.false_eq_true, if_false, Option.map_none,
      Option.getD_none]
    exact ⟨trivial, trivial, alistInsert_find_self _ _ _, by
      simpa using alistInsert_find_self st.byUdn service.udn
        [⟨st.nextId, service.key, .Status_Unsubscribed⟩]⟩

/-- Witness for `subscribe_cases`: a non-evented service is rejected without
state change, and a service with an existing Subscribed record yields
already-subscribed. -/
theorem subscribe_cases_witness :
    HEventSubscriptionManager.subscribe ⟨[], [], 0⟩ ⟨false, 7, 3⟩
      = ⟨.Sub_Failed_NotEvented, ⟨[], [], 0⟩, none⟩ ∧
    HEventSubscriptionManager.subscribe
        ⟨[(5, ⟨5, 3, .Status_Subscribed⟩)],
          [(7, [⟨5, 3, .Status_Subscribed⟩])], 6⟩ ⟨true, 7, 3⟩
      = ⟨.Sub_AlreadySubscribed,
          ⟨[(5, ⟨5, 3, .Status_Subscribed⟩)],
            [(7, [⟨5, 3, .Status_Subscribed⟩])], 6⟩, none⟩ :=
  ⟨(subscribe_cases ⟨[], [], 0⟩ ⟨false, 7, 3⟩).1 rfl,
   (subscribe_cases
      ⟨[(5, ⟨5, 3, .Status_Subscribed⟩)],
        [(7, [⟨5, 3, .Status_Subscribed⟩])], 6⟩ ⟨true, 7, 3⟩).2.1
     (7, [⟨5, 3, .Status_Subscribed⟩]) ⟨5, 3, .Status_Subscribed⟩
     rfl (by decide) (by decide) rfl⟩

/-- C6 (code bug): when the HTTP server fails to bind, and when the doInit
hook fails, init does return the matching error code and does unwind fully
to Uninitialized, but the stored error string ends up empty: the message
written inside the try block is overwritten on the common failure path with
the local error variable, which only the exception handlers assign.  The
exception paths (device-description and SSDP-bind failures) and the
empty-configuration path store their messages as the claim states. -/
theorem init_failure_paths :
    HDeviceHost.init emptyHost ⟨false, false, none, true, .Success⟩
      = ⟨.UndefinedFailure, emptyHost, some ""⟩ ∧
    HDeviceHost.init emptyHost ⟨false, true, none, true, .UndefinedFailure⟩
      = ⟨.UndefinedFailure, emptyHost, some ""⟩ ∧
    HDeviceHost.init emptyHost
        ⟨false, true, some (.invalidDeviceDescription "bad root element"),
          true, .Success⟩
      = ⟨.InvalidDeviceDescription, emptyHost, some "bad root element"⟩ ∧
    HDeviceHost.init emptyHost ⟨false, true, none, false, .Success⟩
      = ⟨.CommunicationsError, emptyHost,
          some "Failed to initialize SSDP."⟩ ∧
    HDeviceHost.init emptyHost ⟨true, true, none, true, .Success⟩
      = ⟨.InvalidConfiguration, emptyHost,
          some "No UPnP device configuration provided."⟩ := by
  refine ⟨rfl, rfl, rfl, rfl, rfl⟩

/-- C7 counterexample: quit is declared void in the source; called on an
Uninitialized host it returns no value, in particular not NotStarted. -/
theorem quit_returns_no_code :
    (HDeviceHost.quit emptyHost).returned = none ∧
    (HDeviceHost.quit emptyHost).returned ≠ some ReturnCode.NotStarted := by
  exact ⟨rfl, by decide⟩

/-- C7 (amended): quit on a host in state Uninitialized is a no-op: no state
change and no network activity; since quit is declared void it returns no
code.  After any quit completes the host is Uninitialized, so a second quit
immediately after a first one is such a no-op. -/
theorem quit_uninitialized_noop (h : HostObs)
    (hs : h.state = .Uninitialized) :
    HDeviceHost.quit h = ⟨h, [], none⟩ ∧
    (∀ h2 : HostObs, HDeviceHost.quit ((HDeviceHost.quit h2).host)
      = ⟨(HDeviceHost.quit h2).host, [], none⟩) := by
  constructor
  · simp [HDeviceHost.quit, hs]
  · intro h2
    by_cases h2s : h2.state = .Uninitialized
    · simp [HDeviceHost.quit, h2s]
    · simp [HDeviceHost.quit, h2s, doClear, emptyHost]

/-- Witness for `quit_uninitialized_noop` at the freshly constructed host. -/
theorem quit_uninitialized_noop_witness :
    HDeviceHost.quit emptyHost = ⟨emptyHost, [], none⟩ :=
  (quit_uninitialized_noop emptyHost rfl).1

theorem sendLoop_nil (remaining thr : Nat) (hr : remaining ≠ 0) :
    sendLoop [] remaining thr = .stillLooping := by
  rw [sendLoop, if_neg hr]

theorem sendLoop_cons_zero (steps : List SockStep) (remaining thr : Nat)
    (hr : remaining ≠ 0) (hthr : thr ≤ 100) :
    sendLoop (⟨true, 0, true⟩ :: steps) remaining thr
      = sendLoop steps remaining (thr + 1) := by
  conv_lhs => rw [sendLoop]
  simp [hr, Nat.not_lt.mpr hthr]

theorem sendLoop_cons_zero_fail (steps : List SockStep) (remaining thr : Nat)
    (hr : remaining ≠ 0) (hthr : 100 < thr) :
    sendLoop (⟨true, 0, true⟩ :: steps) remaining thr = .socketError := by
  rw [sendLoop]
  simp [hr, hthr]

theorem sendLoop_replicate_zero (n remaining thr : Nat) (hr : 0 < remaining)
    (hb : thr + n ≤ 101) :
    sendLoop (List.replicate n ⟨true, 0, true⟩) remaining thr
      = .stillLooping := by
  induction n generalizing thr with
  | zero => exact sendLoop_nil remaining thr (Nat.pos_iff_ne_zero.mp hr)
  | succ n ih =>
    rw [List.replicate_succ,
      sendLoop_cons_zero _ _ _ (Nat.pos_iff_ne_zero.mp hr) (by omega)]
    exact ih (thr + 1) (by omega)

theorem chunkWriteLoop_replicate_zero (n thr : Nat) (h : thr + n = 100) :
    chunkWriteLoop (List.replicate n ⟨true, 0, true⟩) thr
      = .exitedThreshold := by
  induction n generalizing thr with
  | zero =>
    have h100 : 100 ≤ thr := by omega
    simp [chunkWriteLoop, h100]
  | succ n ih =>
    rw [List.replicate_succ, chunkWriteLoop, if_neg (by omega)]
    have hlt : ¬(100 < thr) := by omega
    simp only [decide_eq_true_eq, if_pos rfl, Bool.not_true, Bool.false_or,
      decide_eq_false hlt, if_neg, Bool.false_eq_true]
    exact ih (thr + 1) (by omega)

theorem sendLoop_replicate_zero_overflow (n remaining thr : Nat)
    (hr : 0 < remaining) (hlow : thr ≤ 101) (hb : thr + n = 102) :
    sendLoop (List.replicate n ⟨true, 0, true⟩) remaining thr
      = .socketError := by
  induction n generalizing thr with
  | zero => omega
  | succ n ih =>
    rw [List.replicate_succ]
    by_cases hc : 100 < thr
    · exact sendLoop_cons_zero_fail _ _ _ (Nat.pos_iff_ne_zero.mp hr) hc
    · rw [sendLoop_cons_zero _ _ _ (Nat.pos_iff_ne_zero.mp hr) (by omega)]
      exact ih (thr + 1) (by omega) (by omega)

/-- C8 counterexample: with one byte left to send on a connected, valid
socket, 101 consecutive zero-byte writes (the first attempt plus 100
retries) do not make the send fail; the Socket error is only raised on the
102nd zero-byte write, so the send is retried more than 100 times before it
fails. -/
theorem sendLoop_survives_100_retries :
    sendLoop (List.replicate 101 ⟨true, 0, true⟩) 1 0 = .stillLooping ∧
    sendLoop (List.replicate 102 ⟨true, 0, true⟩) 1 0 = .socketError :=
  ⟨sendLoop_replicate_zero 101 1 0 (by omega) (by omega),
   sendLoop_replicate_zero_overflow 102 1 0 (by omega) (by omega) (by omega)⟩

/-- C8 (amended): in the plain send loop a zero-byte write on a connected,
valid socket is retried up to 101 times: the loop survives any run of at
most 101 consecutive zero-byte writes and throws a Socket error on the
102nd; a negative write result or a disconnected socket fails immediately,
without exhausting the retries.  The chunk-write loop of sendChunked instead
stops retrying zero-byte writes once the error threshold reaches 100 and
exits without raising an error. -/
theorem sendLoop_retry_bounds :
    (∀ n remaining : Nat, 0 < remaining → n ≤ 101 →
      sendLoop (List.replicate n ⟨true, 0, true⟩) remaining 0
        = .stillLooping) ∧
    (∀ remaining : Nat, 0 < remaining →
      sendLoop (List.replicate 102 ⟨true, 0, true⟩) remaining 0
        = .socketError) ∧
    (∀ (steps : List SockStep) (remaining thr : Nat) (w : Int) (v : Bool),
      0 < remaining →
      sendLoop (⟨false, w, v⟩ :: steps) remaining thr = .socketError) ∧
    (∀ (steps : List SockStep) (remaining thr : Nat) (w : Int),
      0 < remaining → w < 0 →
      sendLoop (⟨true, w, true⟩ :: steps) remaining thr = .socketError) ∧
    (∀ (steps : List SockStep) (thr : Nat), 100 ≤ thr →
      chunkWriteLoop steps thr = .exitedThreshold) ∧
    (chunkWriteLoop (List.replicate 100 ⟨true, 0, true⟩) 0
      = .exitedThreshold) := by
  refine ⟨?_, ?_, ?_, ?_, ?_, ?_⟩
  · intro n remaining hr hn
    exact sendLoop_replicate_zero n remaining 0 hr (by omega)
  · intro remaining hr
    exact sendLoop_replicate_zero_overflow 102 remaining 0 hr
      (by omega) (by omega)
  · intro steps remaining thr w v hr
    rw [sendLoop]
    simp [Nat.pos_iff_ne_zero.mp hr]
  · intro steps remaining thr w hr hw
    rw [sendLoop]
    simp only [if_neg (Nat.pos_iff_ne_zero.mp hr)]
    simp [hw, hw.ne, Int.not_lt.mpr hw.le]
  · intro steps thr hthr
    cases steps <;> simp [chunkWriteLoop, hthr]
  · exact chunkWriteLoop_replicate_zero 100 0 rfl

/-- Witness for `sendLoop_retry_bounds`: with one byte pending, 50 zero-byte
writes leave the send loop running, and a disconnected socket fails it at
once. -/
theorem sendLoop_retry_bounds_witness :
    sendLoop (List.replicate 50 ⟨true, 0, true⟩) 1 0 = .stillLooping ∧
    sendLoop [⟨false, 0, true⟩] 1 0 = .socketError :=
  ⟨sendLoop_retry_bounds.1 50 1 (by decide) (by decide),
   sendLoop_retry_bounds.2.2.1 [] 1 0 0 true (by decide)⟩

/-- C9: a SUBSCRIBE accepted by the server-side event notifier for a
non-evented service is granted the fixed timeout of 24 hours instead of the
requested one, while an accepted subscription on an evented service is
granted the requested timeout; and since state-change notifications
originate only from evented services, a subscriber to a non-evented service
is never delivered a change notification. -/
theorem addSubscriber_nonEvented_24h (st : EventNotifierState)
    (service : HServiceH) (sreq : SubscribeRequestM)
    (rc : ServiceEventSubscriberM) (st' : EventNotifierState) :
    (EventNotifier.addSubscriber st service sreq = (some rc, st') →
      (service.isEvented = false → rc.timeout = 60 * 60 * 24) ∧
      (service.isEvented = true → rc.timeout = sreq.timeout)) ∧
    (∀ (source : HServiceH) (sub : ServiceEventSubscriberM),
      source.isEvented = true →
      sub.service.isEvented = false →
      (sub.service.udn = source.udn → sub.service.scpdUrl = source.scpdUrl →
        sub.service = source) →
      sub ∉ EventNotifier.stateChanged st source) := by
  constructor
  · intro h
    simp only [EventNotifier.addSubscriber] at h
    split_ifs at h with h1 h2 h3
    · exact absurd h (by simp)
    · exact absurd h (by simp)
    · rw [Prod.mk.injEq] at h
      obtain ⟨hrc, -⟩ := h
      injection hrc with hrc
      refine ⟨fun hev => absurd h3 (by simp [hev]), fun _ => ?_⟩
      rw [← hrc]
    · rw [Prod.mk.injEq] at h
      obtain ⟨hrc, -⟩ := h
      injection hrc with hrc
      refine ⟨fun _ => ?_, fun hev => absurd hev h3⟩
      rw [← hrc]
  · intro source sub hsrc hsub hcons hmem
    simp only [EventNotifier.stateChanged] at hmem
    split_ifs at hmem
    · simp at hmem
    · rw [List.mem_filter] at hmem
      obtain ⟨-, hint⟩ := hmem
      simp only [ServiceEventSubscriberM.isInterested, isSameService,
        Bool.and_eq_true, decide_eq_true_eq] at hint
      rw [hcons hint.1 hint.2] at hsub
      rw [hsub] at hsrc
      cases hsrc

/-- Witness for `addSubscriber_nonEvented_24h`: a subscription accepted for
a non-evented service carries the 24-hour timeout. -/
theorem addSubscriber_nonEvented_24h_witness :
    (⟨⟨1, 2, false⟩, 9, 86400⟩ : ServiceEventSubscriberM).timeout = 86400 :=
  ((addSubscriber_nonEvented_24h ⟨[], false⟩ ⟨1, 2, false⟩ ⟨[9], 300⟩
      ⟨⟨1, 2, false⟩, 9, 86400⟩ ⟨[⟨⟨1, 2, false⟩, 9, 86400⟩], false⟩).1
    (by decide)).1 rfl

/-- C10: a received HTTP message whose header carries both a chunked
Transfer-Encoding and a Content-Length is treated as malformed: the parsed
header is replaced by the default (invalid) header and an empty body is
returned, rather than reading the body under either framing. -/
theorem receiveFraming_chunked_with_contentLength (hdr : RecvHeader)
    (chunkedData stream : List Nat) (hv : hdr.valid = true)
    (hte : hdr.transferEncoding = some "chunked")
    (hcl : hdr.contentLength.isSome = true) :
    receiveFraming hdr chunkedData stream = (RecvHeader.default, []) ∧
    RecvHeader.default.valid = false := by
  refine ⟨?_, rfl⟩
  simp [receiveFraming, hv, hte, hcl]

/-- Witness for `receiveFraming_chunked_with_contentLength` at a header that
carries both framings and a socket holding data under each. -/
theorem receiveFraming_chunked_with_contentLength_witness :
    receiveFraming ⟨true, some "chunked", some 5⟩ [1, 2] [3, 4, 5]
      = (RecvHeader.default, []) :=
  (receiveFraming_chunked_with_contentLength
    ⟨true, some "chunked", some 5⟩ [1, 2] [3, 4, 5] rfl rfl rfl).1

end Hupnp
